import Mathlib

/-!
Shallow embedding of `src/backend/llm_gateway.py` (class `LLMGateway`).

The gateway tries a fixed priority chain of LLM providers
(Groq, Together AI, Gemini, Hugging Face, OpenAI), each gated by the
presence of its credential in the process environment, and degrades to a
sentinel "no provider" response when the whole chain is exhausted.

Modelling conventions:
- Python's `os.getenv` returns `Option String`; Python truthiness of the
  returned value is `envTruthy` (absent or empty string is falsy).
- Each provider's external network call is an oracle stored in `World`:
  a function from the exact arguments the source passes to the client
  library to either an exception (`CallResult.throws`) or a native reply.
  Everything the source does before and after the network call
  (argument construction, the `total_requests` increment, translation of
  the native reply) is embedded directly from the source.
- Indexing `response.choices[0]` on an empty `choices` list raises
  `IndexError` in Python; the embedding returns `CallResult.throws` there.
- The gateway's `print` of the "Using <provider> key" line at adapter
  entry is modelled as appending the provider tag to `GWState.log`, so
  that "this provider was attempted" is observable; other prints carry
  no information the claims need and are not modelled.
- Python ints are `Int`; `x or y` on an optional int is `pyOrInt`
  (`None` and `0` are falsy); `x or y` on optional strings is `pyOr`.
- `temperature` is a Python float; it is only ever passed through to the
  oracles, never computed with, so `Float` is adequate.
-/

set_option autoImplicit false

namespace LLMGateway

/-- A chat message `{role, content}` as passed in `messages`. -/
structure Msg where
  role : String
  content : String
  deriving DecidableEq, Repr

/-- The `message` object inside a native chat-completions reply choice. -/
structure NativeMsg where
  role : String
  content : String
  deriving DecidableEq, Repr

/-- One element of the `choices` array of a native chat-completions reply. -/
structure NativeChoice where
  message : NativeMsg
  deriving DecidableEq, Repr

/-- Native reply shape of the Groq / Together / OpenAI chat clients:
an object with a `choices` array. -/
structure ChatReply where
  choices : List NativeChoice
  deriving DecidableEq, Repr

/-- Native reply of `genai.GenerativeModel.generate_content`: the source
only reads `response.text`. -/
structure GemReply where
  text : String
  deriving DecidableEq, Repr

/-- One element of a JSON-array reply from the Hugging Face inference API:
the source reads `item.get('generated_text', '')`. -/
structure HFItem where
  generated_text : Option String
  deriving DecidableEq, Repr

/-- Decoded JSON reply of the Hugging Face inference API, as discriminated
by the source's `isinstance` checks.  Each constructor carries the string
`str(result)` would produce, where the source can reach it. -/
inductive HFJson where
  /-- `result` is a JSON list; `str_repr` is `str(result)` (used when the
  list is empty). -/
  | jlist (items : List HFItem) (str_repr : String)
  /-- `result` is a JSON dict with an optional `generated_text` field;
  `str_repr` is `str(result)`. -/
  | jdict (generated_text : Option String) (str_repr : String)
  /-- any other JSON value; `str_repr` is `str(result)`. -/
  | jother (str_repr : String)
  deriving DecidableEq, Repr

/-- The response dict every adapter returns:
`{'choices': [{'message': {...}}], 'provider': ..., 'model': ...}`. -/
structure Response where
  choices : List NativeChoice
  provider : String
  model : String
  deriving DecidableEq, Repr

/-- The `self.stats` dict initialised in `LLMGateway.__init__`. -/
structure Gw where
  total_requests : Nat
  total_tokens : Nat
  provider_breakdown : List (String × Nat)
  deriving DecidableEq, Repr

/-- Mutable state threaded through a gateway call: the `stats` dict plus
the log of provider adapters entered (the "Using <provider> key" prints). -/
structure GWState where
  stats : Gw
  log : List String
  deriving DecidableEq, Repr

/-- The environment variables the gateway reads, as `os.getenv` sees them. -/
structure Env where
  GROQ_API_KEY : Option String
  TOGETHER_API_KEY : Option String
  GEMINI_API_KEY : Option String
  GOOGLE_API_KEY : Option String
  HUGGINGFACE_API_KEY : Option String
  HF_API_KEY : Option String
  OPENAI_API_KEY : Option String
  deriving DecidableEq, Repr

/-- Outcome of running a piece of Python code that may raise: either an
exception (with its message) or a value. -/
inductive CallResult (α : Type) where
  | throws (e : String)
  | ok (r : α)
  deriving DecidableEq, Repr

/-- Arguments the source passes to the Groq / Together / OpenAI chat
clients: the key used to build the client and the fields of
`client.chat.completions.create(...)`. -/
structure ChatArgs where
  api_key : String
  model : String
  messages : List Msg
  temperature : Float
  max_tokens : Int

/-- Arguments the source passes to the Gemini client: the key given to
`genai.configure`, the flattened prompt, and the generation config. -/
structure GeminiArgs where
  api_key : String
  model : String
  prompt : String
  temperature : Float
  max_output_tokens : Int

/-- Arguments of the Hugging Face `requests.post` payload, plus the key in
the Authorization header and the model id in the URL. -/
structure HFArgs where
  api_key : String
  model_id : String
  inputs : String
  max_new_tokens : Int
  temperature : Float
  return_full_text : Bool

/-- The external world a gateway call runs against: the environment and,
for each provider, what its network call does on given arguments. -/
structure World where
  env : Env
  groqCall : ChatArgs → CallResult ChatReply
  togetherCall : ChatArgs → CallResult ChatReply
  geminiCall : GeminiArgs → CallResult GemReply
  hfCall : HFArgs → CallResult HFJson
  openaiCall : ChatArgs → CallResult ChatReply

/-- Python truthiness of an `os.getenv` result: `None` and `""` are falsy. -/
def envTruthy : Option String → Bool
  | none => false
  | some s => !s.isEmpty

/-- The string value handed to an adapter once its gate was truthy. -/
def keyVal (o : Option String) : String := o.getD ""

/-- Python `x or y` on two `os.getenv` results. -/
def pyOr (a b : Option String) : Option String :=
  if envTruthy a then a else b

/-- Python `max_tokens or 2000` on `Optional[int]`: `None` and `0` are
falsy, every other int is returned unchanged. -/
def pyOrInt (o : Option Int) (d : Int) : Int :=
  match o with
  | none => d
  | some n => if n = 0 then d else n

/-- `l` is a leading segment of `m` (chars compared one by one). -/
def listPre : List Char → List Char → Bool
  | [], _ => true
  | _ :: _, [] => false
  | a :: as, b :: bs => a = b && listPre as bs

/-- `n` occurs as a contiguous run inside `m`. -/
def listSub (n : List Char) : List Char → Bool
  | [] => listPre n []
  | c :: cs => listPre n (c :: cs) || listSub n cs

/-- Python `needle in hay` on strings. -/
def strContains (hay needle : String) : Bool :=
  listSub needle.toList hay.toList

/-- The model override in `_call_together`: if neither `'llama'` nor
`'code'` occurs in `model.lower()`, replace it by the default. -/
def togetherModel (model : String) : String :=
  if !strContains model.toLower "llama" && !strContains model.toLower "code" then
    "meta-llama/Llama-3.3-70B-Instruct-Turbo"
  else model

/-- The prompt `_call_gemini` builds by folding over `messages`. -/
def geminiPrompt (messages : List Msg) : String :=
  messages.foldl
    (fun prompt msg =>
      if msg.role = "system" then
        prompt ++ "Instructions: " ++ msg.content ++ "\n\n"
      else
        prompt ++ msg.content ++ "\n")
    ""

/-- The prompt `_call_huggingface` builds by folding over `messages`. -/
def hfPrompt (messages : List Msg) : String :=
  messages.foldl
    (fun prompt msg =>
      if msg.role = "system" then
        prompt ++ "[INST] " ++ msg.content ++ " [/INST]\n"
      else if msg.role = "user" then
        prompt ++ "[INST] " ++ msg.content ++ " [/INST]\n"
      else
        prompt ++ msg.content ++ "\n")
    ""

/-- The `generated_text` extraction in `_call_huggingface` (the
`isinstance` chain over the decoded JSON). -/
def hfExtract : HFJson → String
  | .jlist (item :: _) _ => item.generated_text.getD ""
  | .jlist [] s => s
  | .jdict gt s => gt.getD s
  | .jother s => s

/-- `self.stats['total_requests'] += 1`. -/
def incReq (s : Gw) : Gw :=
  { s with total_requests := s.total_requests + 1 }

/-- The sentinel response returned when every provider was absent or
failed (end of `completion`). -/
def noApiResponse : Response :=
  { choices := [{ message := { role := "assistant", content :=
        "Error: No LLM API key configured. Please set GROQ_API_KEY, TOGETHER_API_KEY, HUGGINGFACE_API_KEY, or OPENAI_API_KEY environment variable." } }],
    provider := "none",
    model := "none" }

/-- Gateway state as built by `LLMGateway.__init__`. -/
def initGateway : GWState :=
  { stats := { total_requests := 0, total_tokens := 0, provider_breakdown := [] },
    log := [] }

/-- `get_stats`: returns the stats dict. -/
def get_stats (st : GWState) : Gw := st.stats

/-- The arguments `_call_groq` passes to `Groq(...).chat.completions.create`
(the model is hardcoded; the caller's model hint is not passed in). -/
def groqArgs (api_key : String) (messages : List Msg) (temperature : Float)
    (max_tokens : Option Int) : ChatArgs :=
  { api_key := api_key,
    model := "llama-3.3-70b-versatile",
    messages := messages,
    temperature := temperature,
    max_tokens := pyOrInt max_tokens 2000 }

/-- The arguments `_call_together` passes to its client (after the model
override). -/
def togetherArgs (api_key : String) (model : String) (messages : List Msg)
    (temperature : Float) (max_tokens : Option Int) : ChatArgs :=
  { api_key := api_key,
    model := togetherModel model,
    messages := messages,
    temperature := temperature,
    max_tokens := pyOrInt max_tokens 2000 }

/-- The arguments `_call_gemini` passes to `generate_content`. -/
def geminiArgs (api_key : String) (messages : List Msg) (temperature : Float)
    (max_tokens : Option Int) : GeminiArgs :=
  { api_key := api_key,
    model := "gemini-pro",
    prompt := geminiPrompt messages,
    temperature := temperature,
    max_output_tokens := pyOrInt max_tokens 2000 }

/-- The arguments `_call_huggingface` passes to `requests.post`. -/
def hfArgs (api_key : String) (messages : List Msg) (temperature : Float)
    (max_tokens : Option Int) : HFArgs :=
  { api_key := api_key,
    model_id := "mistralai/Mistral-7B-Instruct-v0.2",
    inputs := hfPrompt messages,
    max_new_tokens := pyOrInt max_tokens 2000,
    temperature := temperature,
    return_full_text := false }

/-- The arguments `_call_openai` passes to its client (model hardcoded to
`gpt-4o-mini`). -/
def openaiArgs (api_key : String) (messages : List Msg) (temperature : Float)
    (max_tokens : Option Int) : ChatArgs :=
  { api_key := api_key,
    model := "gpt-4o-mini",
    messages := messages,
    temperature := temperature,
    max_tokens := pyOrInt max_tokens 2000 }

/-- `_call_groq` (lines 139-172 of the source).  The stats increment
happens after the network call returns but before `response.choices[0]`
is read, so an empty `choices` list raises after the increment. -/
def callGroq (w : World) (st : GWState) (messages : List Msg) (api_key : String)
    (temperature : Float) (max_tokens : Option Int) : CallResult Response × GWState :=
  let st := { st with log := st.log ++ ["groq"] }
  match w.groqCall (groqArgs api_key messages temperature max_tokens) with
  | .throws e => (.throws e, st)
  | .ok response =>
    let st := { st with stats := incReq st.stats }
    match response.choices with
    | [] => (.throws "list index out of range", st)
    | c :: _ =>
      (.ok { choices := [{ message := { role := "assistant", content := c.message.content } }],
             provider := "groq",
             model := "llama-3.3-70b-versatile" }, st)

/-- `_call_together` (lines 99-137 of the source); same increment-before-
translation layout as `_call_groq`, plus the model override. -/
def callTogether (w : World) (st : GWState) (messages : List Msg) (api_key : String)
    (model : String) (temperature : Float) (max_tokens : Option Int) :
    CallResult Response × GWState :=
  let st := { st with log := st.log ++ ["together"] }
  match w.togetherCall (togetherArgs api_key model messages temperature max_tokens) with
  | .throws e => (.throws e, st)
  | .ok response =>
    let st := { st with stats := incReq st.stats }
    match response.choices with
    | [] => (.throws "list index out of range", st)
    | c :: _ =>
      (.ok { choices := [{ message := { role := "assistant", content := c.message.content } }],
             provider := "together",
             model := togetherModel model }, st)

/-- `_call_gemini` (lines 174-218): the only field read off the native
reply is `response.text`, so nothing can raise after the increment. -/
def callGemini (w : World) (st : GWState) (messages : List Msg) (api_key : String)
    (temperature : Float) (max_tokens : Option Int) : CallResult Response × GWState :=
  let st := { st with log := st.log ++ ["gemini"] }
  match w.geminiCall (geminiArgs api_key messages temperature max_tokens) with
  | .throws e => (.throws e, st)
  | .ok response =>
    let st := { st with stats := incReq st.stats }
    (.ok { choices := [{ message := { role := "assistant", content := response.text } }],
           provider := "gemini",
           model := "gemini-pro" }, st)

/-- `_call_huggingface` (lines 255-320): HTTP errors and JSON decoding are
part of the oracle; the `generated_text` extraction happens before the
increment, so nothing can raise after it. -/
def callHuggingface (w : World) (st : GWState) (messages : List Msg) (api_key : String)
    (temperature : Float) (max_tokens : Option Int) : CallResult Response × GWState :=
  let st := { st with log := st.log ++ ["huggingface"] }
  match w.hfCall (hfArgs api_key messages temperature max_tokens) with
  | .throws e => (.throws e, st)
  | .ok result =>
    let generated_text := hfExtract result
    let st := { st with stats := incReq st.stats }
    (.ok { choices := [{ message := { role := "assistant", content := generated_text } }],
           provider := "huggingface",
           model := "mistralai/Mistral-7B-Instruct-v0.2" }, st)

/-- `_call_openai` (lines 220-253): like `_call_groq` but the reply's own
`role` is copied into the response. -/
def callOpenai (w : World) (st : GWState) (messages : List Msg) (api_key : String)
    (temperature : Float) (max_tokens : Option Int) : CallResult Response × GWState :=
  let st := { st with log := st.log ++ ["openai"] }
  match w.openaiCall (openaiArgs api_key messages temperature max_tokens) with
  | .throws e => (.throws e, st)
  | .ok response =>
    let st := { st with stats := incReq st.stats }
    match response.choices with
    | [] => (.throws "list index out of range", st)
    | c :: _ =>
      (.ok { choices := [{ message := { role := c.message.role, content := c.message.content } }],
             provider := "openai",
             model := "gpt-4o-mini" }, st)

/-- Priority-5 block of `completion` (lines 76-97): try OpenAI, else
return the sentinel.  An adapter's returned dict is a non-empty literal,
hence always truthy, so `if result:` always takes the return. -/
def completionFromOpenai (w : World) (st : GWState) (messages : List Msg)
    (temperature : Float) (max_tokens : Option Int) : Response × GWState :=
  let openai_key := w.env.OPENAI_API_KEY
  if envTruthy openai_key then
    match callOpenai w st messages (keyVal openai_key) temperature max_tokens with
    | (.ok result, st) => (result, st)
    | (.throws _, st) => (noApiResponse, st)
  else (noApiResponse, st)

/-- Priority-4 block of `completion` (lines 66-74): try Hugging Face,
gated by `HUGGINGFACE_API_KEY or HF_API_KEY`. -/
def completionFromHuggingface (w : World) (st : GWState) (messages : List Msg)
    (temperature : Float) (max_tokens : Option Int) : Response × GWState :=
  let hf_key := pyOr w.env.HUGGINGFACE_API_KEY w.env.HF_API_KEY
  if envTruthy hf_key then
    match callHuggingface w st messages (keyVal hf_key) temperature max_tokens with
    | (.ok result, st) => (result, st)
    | (.throws _, st) => completionFromOpenai w st messages temperature max_tokens
  else completionFromOpenai w st messages temperature max_tokens

/-- Priority-3 block of `completion` (lines 56-64): try Gemini, gated by
`GEMINI_API_KEY or GOOGLE_API_KEY`. -/
def completionFromGemini (w : World) (st : GWState) (messages : List Msg)
    (temperature : Float) (max_tokens : Option Int) : Response × GWState :=
  let gemini_key := pyOr w.env.GEMINI_API_KEY w.env.GOOGLE_API_KEY
  if envTruthy gemini_key then
    match callGemini w st messages (keyVal gemini_key) temperature max_tokens with
    | (.ok result, st) => (result, st)
    | (.throws _, st) => completionFromHuggingface w st messages temperature max_tokens
  else completionFromHuggingface w st messages temperature max_tokens

/-- Priority-2 block of `completion` (lines 46-54): try Together AI. -/
def completionFromTogether (w : World) (st : GWState) (messages : List Msg)
    (model : String) (temperature : Float) (max_tokens : Option Int) :
    Response × GWState :=
  let together_key := w.env.TOGETHER_API_KEY
  if envTruthy together_key then
    match callTogether w st messages (keyVal together_key) model temperature max_tokens with
    | (.ok result, st) => (result, st)
    | (.throws _, st) => completionFromGemini w st messages temperature max_tokens
  else completionFromGemini w st messages temperature max_tokens

/-- `LLMGateway.completion` (lines 25-97): the full fallback chain,
starting with the priority-1 Groq block (lines 35-44). -/
def completion (w : World) (st : GWState) (messages : List Msg)
    (model : String) (temperature : Float) (max_tokens : Option Int) :
    Response × GWState :=
  let groq_key := w.env.GROQ_API_KEY
  if envTruthy groq_key then
    match callGroq w st messages (keyVal groq_key) temperature max_tokens with
    | (.ok result, st) => (result, st)
    | (.throws _, st) => completionFromTogether w st messages model temperature max_tokens
  else completionFromTogether w st messages model temperature max_tokens

/-- A CompletionRequest: the argument bundle of one `completion` call. -/
structure Request where
  messages : List Msg
  model : String
  temperature : Float
  max_tokens : Option Int

/-- Run a sequence of `completion` calls on one gateway instance,
keeping only the state. -/
def runCompletions (w : World) (st : GWState) : List Request → GWState
  | [] => st
  | r :: rs =>
      runCompletions w (completion w st r.messages r.model r.temperature r.max_tokens).2 rs

/-! ### Derived views of the adapters

Each `callX` is a pure state transformer; the following functions split it
into its `CallResult` component (independent of the incoming state) and
its effect on the state, with one equation lemma per adapter proving the
split agrees with the direct embedding above. -/

/-- Did a piece of Python code return normally? -/
def isOk {α : Type} : CallResult α → Bool
  | .throws _ => false
  | .ok _ => true

/-- The `CallResult` component of `callGroq`. -/
def groqResult (w : World) (messages : List Msg) (api_key : String)
    (temperature : Float) (max_tokens : Option Int) : CallResult Response :=
  match w.groqCall (groqArgs api_key messages temperature max_tokens) with
  | .throws e => .throws e
  | .ok response =>
    match response.choices with
    | [] => .throws "list index out of range"
    | c :: _ =>
      .ok { choices := [{ message := { role := "assistant", content := c.message.content } }],
            provider := "groq",
            model := "llama-3.3-70b-versatile" }

/-- The `CallResult` component of `callTogether`. -/
def togetherResult (w : World) (messages : List Msg) (api_key : String)
    (model : String) (temperature : Float) (max_tokens : Option Int) : CallResult Response :=
  match w.togetherCall (togetherArgs api_key model messages temperature max_tokens) with
  | .throws e => .throws e
  | .ok response =>
    match response.choices with
    | [] => .throws "list index out of range"
    | c :: _ =>
      .ok { choices := [{ message := { role := "assistant", content := c.message.content } }],
            provider := "together",
            model := togetherModel model }

/-- The `CallResult` component of `callGemini`. -/
def geminiResult (w : World) (messages : List Msg) (api_key : String)
    (temperature : Float) (max_tokens : Option Int) : CallResult Response :=
  match w.geminiCall (geminiArgs api_key messages temperature max_tokens) with
  | .throws e => .throws e
  | .ok response =>
    .ok { choices := [{ message := { role := "assistant", content := response.text } }],
          provider := "gemini",
          model := "gemini-pro" }

/-- The `CallResult` component of `callHuggingface`. -/
def hfResult (w : World) (messages : List Msg) (api_key : String)
    (temperature : Float) (max_tokens : Option Int) : CallResult Response :=
  match w.hfCall (hfArgs api_key messages temperature max_tokens) with
  | .throws e => .throws e
  | .ok result =>
    .ok { choices := [{ message := { role := "assistant", content := hfExtract result } }],
          provider := "huggingface",
          model := "mistralai/Mistral-7B-Instruct-v0.2" }

/-- The `CallResult` component of `callOpenai`. -/
def openaiResult (w : World) (messages : List Msg) (api_key : String)
    (temperature : Float) (max_tokens : Option Int) : CallResult Response :=
  match w.openaiCall (openaiArgs api_key messages temperature max_tokens) with
  | .throws e => .throws e
  | .ok response =>
    match response.choices with
    | [] => .throws "list index out of range"
    | c :: _ =>
      .ok { choices := [{ message := { role := c.message.role, content := c.message.content } }],
            provider := "openai",
            model := "gpt-4o-mini" }

/-- State effect shared by all five adapters: log the attempt, and bump
`total_requests` exactly when the native call returned normally. -/
def adapterState (tag : String) {α : Type} (native : CallResult α) (st : GWState) : GWState :=
  { st with
    log := st.log ++ [tag],
    stats := if isOk native then incReq st.stats else st.stats }

theorem callGroq_eq (w : World) (st : GWState) (m : List Msg) (k : String)
    (t : Float) (mt : Option Int) :
    callGroq w st m k t mt =
      (groqResult w m k t mt, adapterState "groq" (w.groqCall (groqArgs k m t mt)) st) := by
  unfold callGroq groqResult adapterState isOk
  cases w.groqCall (groqArgs k m t mt) with
  | throws e => rfl
  | ok r => obtain ⟨choices⟩ := r; cases choices <;> rfl

theorem callTogether_eq (w : World) (st : GWState) (m : List Msg) (k model : String)
    (t : Float) (mt : Option Int) :
    callTogether w st m k model t mt =
      (togetherResult w m k model t mt,
       adapterState "together" (w.togetherCall (togetherArgs k model m t mt)) st) := by
  unfold callTogether togetherResult adapterState isOk
  cases w.togetherCall (togetherArgs k model m t mt) with
  | throws e => rfl
  | ok r => obtain ⟨choices⟩ := r; cases choices <;> rfl

theorem callGemini_eq (w : World) (st : GWState) (m : List Msg) (k : String)
    (t : Float) (mt : Option Int) :
    callGemini w st m k t mt =
      (geminiResult w m k t mt, adapterState "gemini" (w.geminiCall (geminiArgs k m t mt)) st) := by
  unfold callGemini geminiResult adapterState isOk
  cases w.geminiCall (geminiArgs k m t mt) <;> rfl

theorem callHuggingface_eq (w : World) (st : GWState) (m : List Msg) (k : String)
    (t : Float) (mt : Option Int) :
    callHuggingface w st m k t mt =
      (hfResult w m k t mt, adapterState "huggingface" (w.hfCall (hfArgs k m t mt)) st) := by
  unfold callHuggingface hfResult adapterState isOk
  cases w.hfCall (hfArgs k m t mt) <;> rfl

theorem callOpenai_eq (w : World) (st : GWState) (m : List Msg) (k : String)
    (t : Float) (mt : Option Int) :
    callOpenai w st m k t mt =
      (openaiResult w m k t mt, adapterState "openai" (w.openaiCall (openaiArgs k m t mt)) st) := by
  unfold callOpenai openaiResult adapterState isOk
  cases w.openaiCall (openaiArgs k m t mt) with
  | throws e => rfl
  | ok r => obtain ⟨choices⟩ := r; cases choices <;> rfl

/-! ### Credential gates and per-provider outcome predicates -/

/-- Gate of the priority-1 block: `os.getenv('GROQ_API_KEY')` is truthy. -/
def groqGate (e : Env) : Bool := envTruthy e.GROQ_API_KEY

/-- Gate of the priority-2 block. -/
def togetherGate (e : Env) : Bool := envTruthy e.TOGETHER_API_KEY

/-- Gate of the priority-3 block: truthiness of
`os.getenv('GEMINI_API_KEY') or os.getenv('GOOGLE_API_KEY')`. -/
def geminiGate (e : Env) : Bool := envTruthy (pyOr e.GEMINI_API_KEY e.GOOGLE_API_KEY)

/-- Gate of the priority-4 block: truthiness of
`os.getenv('HUGGINGFACE_API_KEY') or os.getenv('HF_API_KEY')`. -/
def hfGate (e : Env) : Bool := envTruthy (pyOr e.HUGGINGFACE_API_KEY e.HF_API_KEY)

/-- Gate of the priority-5 block. -/
def openaiGate (e : Env) : Bool := envTruthy e.OPENAI_API_KEY

/-- The Groq block returns a response: gated and the adapter completes. -/
def groqRet (w : World) (m : List Msg) (t : Float) (mt : Option Int) : Bool :=
  groqGate w.env && isOk (groqResult w m (keyVal w.env.GROQ_API_KEY) t mt)

/-- The Together block returns a response. -/
def togetherRet (w : World) (m : List Msg) (model : String) (t : Float)
    (mt : Option Int) : Bool :=
  togetherGate w.env && isOk (togetherResult w m (keyVal w.env.TOGETHER_API_KEY) model t mt)

/-- The Gemini block returns a response. -/
def geminiRet (w : World) (m : List Msg) (t : Float) (mt : Option Int) : Bool :=
  geminiGate w.env &&
    isOk (geminiResult w m (keyVal (pyOr w.env.GEMINI_API_KEY w.env.GOOGLE_API_KEY)) t mt)

/-- The Hugging Face block returns a response. -/
def hfRet (w : World) (m : List Msg) (t : Float) (mt : Option Int) : Bool :=
  hfGate w.env &&
    isOk (hfResult w m (keyVal (pyOr w.env.HUGGINGFACE_API_KEY w.env.HF_API_KEY)) t mt)

/-- The OpenAI block returns a response. -/
def openaiRet (w : World) (m : List Msg) (t : Float) (mt : Option Int) : Bool :=
  openaiGate w.env && isOk (openaiResult w m (keyVal w.env.OPENAI_API_KEY) t mt)

/-- The provider tag the whole chain ends up answering with: the first
provider, in priority order, that is gated and whose adapter completes;
`"none"` when there is no such provider. -/
def providerOf (w : World) (m : List Msg) (model : String) (t : Float)
    (mt : Option Int) : String :=
  if groqRet w m t mt then "groq"
  else if togetherRet w m model t mt then "together"
  else if geminiRet w m t mt then "gemini"
  else if hfRet w m t mt then "huggingface"
  else if openaiRet w m t mt then "openai"
  else "none"

/-- Providers attempted by the priority-5 tail of the chain. -/
def openaiTags (e : Env) : List String :=
  if openaiGate e then ["openai"] else []

/-- Providers attempted from the priority-4 block on. -/
def hfTags (w : World) (m : List Msg) (t : Float) (mt : Option Int) : List String :=
  (if hfGate w.env then ["huggingface"] else []) ++
    (if hfRet w m t mt then [] else openaiTags w.env)

/-- Providers attempted from the priority-3 block on. -/
def geminiTags (w : World) (m : List Msg) (t : Float) (mt : Option Int) : List String :=
  (if geminiGate w.env then ["gemini"] else []) ++
    (if geminiRet w m t mt then [] else hfTags w m t mt)

/-- Providers attempted from the priority-2 block on. -/
def togetherTags (w : World) (m : List Msg) (model : String) (t : Float)
    (mt : Option Int) : List String :=
  (if togetherGate w.env then ["together"] else []) ++
    (if togetherRet w m model t mt then [] else geminiTags w m t mt)

/-- Providers attempted by a whole `completion` call, in order. -/
def attemptTags (w : World) (m : List Msg) (model : String) (t : Float)
    (mt : Option Int) : List String :=
  (if groqGate w.env then ["groq"] else []) ++
    (if groqRet w m t mt then [] else togetherTags w m model t mt)

theorem groqResult_provider (w : World) (m : List Msg) (k : String) (t : Float)
    (mt : Option Int) (r : Response) (h : groqResult w m k t mt = .ok r) :
    r.provider = "groq" := by
  unfold groqResult at h
  split at h
  · exact absurd h (by simp)
  · split at h
    · exact absurd h (by simp)
    · simp only [CallResult.ok.injEq] at h
      subst h
      rfl

theorem togetherResult_provider (w : World) (m : List Msg) (k model : String) (t : Float)
    (mt : Option Int) (r : Response) (h : togetherResult w m k model t mt = .ok r) :
    r.provider = "together" := by
  unfold togetherResult at h
  split at h
  · exact absurd h (by simp)
  · split at h
    · exact absurd h (by simp)
    · simp only [CallResult.ok.injEq] at h
      subst h
      rfl

theorem geminiResult_provider (w : World) (m : List Msg) (k : String) (t : Float)
    (mt : Option Int) (r : Response) (h : geminiResult w m k t mt = .ok r) :
    r.provider = "gemini" := by
  unfold geminiResult at h
  split at h
  · exact absurd h (by simp)
  · simp only [CallResult.ok.injEq] at h
    subst h
    rfl

theorem hfResult_provider (w : World) (m : List Msg) (k : String) (t : Float)
    (mt : Option Int) (r : Response) (h : hfResult w m k t mt = .ok r) :
    r.provider = "huggingface" := by
  unfold hfResult at h
  split at h
  · exact absurd h (by simp)
  · simp only [CallResult.ok.injEq] at h
    subst h
    rfl

theorem openaiResult_provider (w : World) (m : List Msg) (k : String) (t : Float)
    (mt : Option Int) (r : Response) (h : openaiResult w m k t mt = .ok r) :
    r.provider = "openai" := by
  unfold openaiResult at h
  split at h
  · exact absurd h (by simp)
  · split at h
    · exact absurd h (by simp)
    · simp only [CallResult.ok.injEq] at h
      subst h
      rfl

/-! ### Chain lemmas: provider tag, attempt log, and stats frame,
block by block from the bottom of the fallback chain upwards. -/

theorem completionFromOpenai_provider (w : World) (st : GWState) (m : List Msg)
    (t : Float) (mt : Option Int) :
    (completionFromOpenai w st m t mt).1.provider =
      (if openaiRet w m t mt then "openai" else "none") := by
  unfold completionFromOpenai openaiRet openaiGate
  cases hg : envTruthy w.env.OPENAI_API_KEY with
  | false => simp [hg, noApiResponse]
  | true =>
    simp only [hg]
    rw [callOpenai_eq]
    cases ho : openaiResult w m (keyVal w.env.OPENAI_API_KEY) t mt with
    | throws e => simp [isOk, noApiResponse]
    | ok r => simp [isOk, openaiResult_provider w m _ t mt r ho]

theorem completionFromHuggingface_provider (w : World) (st : GWState) (m : List Msg)
    (t : Float) (mt : Option Int) :
    (completionFromHuggingface w st m t mt).1.provider =
      (if hfRet w m t mt then "huggingface"
       else if openaiRet w m t mt then "openai" else "none") := by
  unfold completionFromHuggingface hfRet hfGate
  cases hg : envTruthy (pyOr w.env.HUGGINGFACE_API_KEY w.env.HF_API_KEY) with
  | false => simp [hg, completionFromOpenai_provider]
  | true =>
    simp only [hg]
    rw [callHuggingface_eq]
    cases ho : hfResult w m (keyVal (pyOr w.env.HUGGINGFACE_API_KEY w.env.HF_API_KEY)) t mt with
    | throws e => simp [isOk, completionFromOpenai_provider]
    | ok r => simp [isOk, hfResult_provider w m _ t mt r ho]

theorem completionFromGemini_provider (w : World) (st : GWState) (m : List Msg)
    (t : Float) (mt : Option Int) :
    (completionFromGemini w st m t mt).1.provider =
      (if geminiRet w m t mt then "gemini"
       else if hfRet w m t mt then "huggingface"
       else if openaiRet w m t mt then "openai" else "none") := by
  unfold completionFromGemini geminiRet geminiGate
  cases hg : envTruthy (pyOr w.env.GEMINI_API_KEY w.env.GOOGLE_API_KEY) with
  | false => simp [hg, completionFromHuggingface_provider]
  | true =>
    simp only [hg]
    rw [callGemini_eq]
    cases ho : geminiResult w m (keyVal (pyOr w.env.GEMINI_API_KEY w.env.GOOGLE_API_KEY)) t mt with
    | throws e => simp [isOk, completionFromHuggingface_provider]
    | ok r => simp [isOk, geminiResult_provider w m _ t mt r ho]

theorem completionFromTogether_provider (w : World) (st : GWState) (m : List Msg)
    (model : String) (t : Float) (mt : Option Int) :
    (completionFromTogether w st m model t mt).1.provider =
      (if togetherRet w m model t mt then "together"
       else if geminiRet w m t mt then "gemini"
       else if hfRet w m t mt then "huggingface"
       else if openaiRet w m t mt then "openai" else "none") := by
  unfold completionFromTogether togetherRet togetherGate
  cases hg : envTruthy w.env.TOGETHER_API_KEY with
  | false => simp [hg, completionFromGemini_provider]
  | true =>
    simp only [hg]
    rw [callTogether_eq]
    cases ho : togetherResult w m (keyVal w.env.TOGETHER_API_KEY) model t mt with
    | throws e => simp [isOk, completionFromGemini_provider]
    | ok r => simp [isOk, togetherResult_provider w m _ model t mt r ho]

theorem completion_provider (w : World) (st : GWState) (m : List Msg)
    (model : String) (t : Float) (mt : Option Int) :
    (completion w st m model t mt).1.provider = providerOf w m model t mt := by
  unfold completion providerOf groqRet groqGate
  cases hg : envTruthy w.env.GROQ_API_KEY with
  | false => simp [hg, completionFromTogether_provider]
  | true =>
    simp only [hg]
    rw [callGroq_eq]
    cases ho : groqResult w m (keyVal w.env.GROQ_API_KEY) t mt with
    | throws e => simp [isOk, completionFromTogether_provider]
    | ok r => simp [isOk, groqResult_provider w m _ t mt r ho]

theorem completionFromOpenai_log (w : World) (st : GWState) (m : List Msg)
    (t : Float) (mt : Option Int) :
    (completionFromOpenai w st m t mt).2.log = st.log ++ openaiTags w.env := by
  unfold completionFromOpenai openaiTags openaiGate
  cases hg : envTruthy w.env.OPENAI_API_KEY with
  | false => simp [hg]
  | true =>
    simp only [hg]
    rw [callOpenai_eq]
    cases ho : openaiResult w m (keyVal w.env.OPENAI_API_KEY) t mt <;>
      simp [adapterState]

theorem completionFromHuggingface_log (w : World) (st : GWState) (m : List Msg)
    (t : Float) (mt : Option Int) :
    (completionFromHuggingface w st m t mt).2.log = st.log ++ hfTags w m t mt := by
  unfold completionFromHuggingface hfTags hfRet hfGate
  cases hg : envTruthy (pyOr w.env.HUGGINGFACE_API_KEY w.env.HF_API_KEY) with
  | false => simp [hg, completionFromOpenai_log]
  | true =>
    simp only [hg]
    rw [callHuggingface_eq]
    cases ho : hfResult w m (keyVal (pyOr w.env.HUGGINGFACE_API_KEY w.env.HF_API_KEY)) t mt with
    | throws e => simp [isOk, completionFromOpenai_log, adapterState]
    | ok r => simp [isOk, adapterState]

theorem completionFromGemini_log (w : World) (st : GWState) (m : List Msg)
    (t : Float) (mt : Option Int) :
    (completionFromGemini w st m t mt).2.log = st.log ++ geminiTags w m t mt := by
  unfold completionFromGemini geminiTags geminiRet geminiGate
  cases hg : envTruthy (pyOr w.env.GEMINI_API_KEY w.env.GOOGLE_API_KEY) with
  | false => simp [hg, completionFromHuggingface_log]
  | true =>
    simp only [hg]
    rw [callGemini_eq]
    cases ho : geminiResult w m (keyVal (pyOr w.env.GEMINI_API_KEY w.env.GOOGLE_API_KEY)) t mt with
    | throws e => simp [isOk, completionFromHuggingface_log, adapterState]
    | ok r => simp [isOk, adapterState]

theorem completionFromTogether_log (w : World) (st : GWState) (m : List Msg)
    (model : String) (t : Float) (mt : Option Int) :
    (completionFromTogether w st m model t mt).2.log = st.log ++ togetherTags w m model t mt := by
  unfold completionFromTogether togetherTags togetherRet togetherGate
  cases hg : envTruthy w.env.TOGETHER_API_KEY with
  | false => simp [hg, completionFromGemini_log]
  | true =>
    simp only [hg]
    rw [callTogether_eq]
    cases ho : togetherResult w m (keyVal w.env.TOGETHER_API_KEY) model t mt with
    | throws e => simp [isOk, completionFromGemini_log, adapterState]
    | ok r => simp [isOk, adapterState]

theorem completion_log (w : World) (st : GWState) (m : List Msg)
    (model : String) (t : Float) (mt : Option Int) :
    (completion w st m model t mt).2.log = st.log ++ attemptTags w m model t mt := by
  unfold completion attemptTags groqRet groqGate
  cases hg : envTruthy w.env.GROQ_API_KEY with
  | false => simp [hg, completionFromTogether_log]
  | true =>
    simp only [hg]
    rw [callGroq_eq]
    cases ho : groqResult w m (keyVal w.env.GROQ_API_KEY) t mt with
    | throws e => simp [isOk, completionFromTogether_log, adapterState]
    | ok r => simp [isOk, adapterState]

theorem adapterState_stats {α : Type} (tag : String) (native : CallResult α) (st : GWState) :
    (adapterState tag native st).stats.total_tokens = st.stats.total_tokens ∧
    (adapterState tag native st).stats.provider_breakdown = st.stats.provider_breakdown ∧
    st.stats.total_requests ≤ (adapterState tag native st).stats.total_requests := by
  unfold adapterState incReq
  cases isOk native <;> simp

theorem completionFromOpenai_stats (w : World) (st : GWState) (m : List Msg)
    (t : Float) (mt : Option Int) :
    (completionFromOpenai w st m t mt).2.stats.total_tokens = st.stats.total_tokens ∧
    (completionFromOpenai w st m t mt).2.stats.provider_breakdown = st.stats.provider_breakdown ∧
    st.stats.total_requests ≤ (completionFromOpenai w st m t mt).2.stats.total_requests := by
  unfold completionFromOpenai
  cases hg : envTruthy w.env.OPENAI_API_KEY with
  | false => simp [hg]
  | true =>
    simp only [hg]
    rw [callOpenai_eq]
    cases ho : openaiResult w m (keyVal w.env.OPENAI_API_KEY) t mt with
    | throws e => simpa using adapterState_stats "openai" _ st
    | ok r => simpa using adapterState_stats "openai" _ st

theorem completionFromHuggingface_stats (w : World) (st : GWState) (m : List Msg)
    (t : Float) (mt : Option Int) :
    (completionFromHuggingface w st m t mt).2.stats.total_tokens = st.stats.total_tokens ∧
    (completionFromHuggingface w st m t mt).2.stats.provider_breakdown = st.stats.provider_breakdown ∧
    st.stats.total_requests ≤ (completionFromHuggingface w st m t mt).2.stats.total_requests := by
  unfold completionFromHuggingface
  cases hg : envTruthy (pyOr w.env.HUGGINGFACE_API_KEY w.env.HF_API_KEY) with
  | false => simpa [hg] using completionFromOpenai_stats w st m t mt
  | true =>
    simp only [hg]
    rw [callHuggingface_eq]
    cases ho : hfResult w m (keyVal (pyOr w.env.HUGGINGFACE_API_KEY w.env.HF_API_KEY)) t mt with
    | throws e =>
      obtain ⟨a1, a2, a3⟩ := adapterState_stats "huggingface"
        (w.hfCall (hfArgs (keyVal (pyOr w.env.HUGGINGFACE_API_KEY w.env.HF_API_KEY)) m t mt)) st
      obtain ⟨b1, b2, b3⟩ := completionFromOpenai_stats w
        (adapterState "huggingface"
          (w.hfCall (hfArgs (keyVal (pyOr w.env.HUGGINGFACE_API_KEY w.env.HF_API_KEY)) m t mt)) st)
        m t mt
      refine ⟨by simp [b1, a1], by simp [b2, a2], ?_⟩
      simpa using le_trans a3 b3
    | ok r => simpa using adapterState_stats "huggingface" _ st

theorem completionFromGemini_stats (w : World) (st : GWState) (m : List Msg)
    (t : Float) (mt : Option Int) :
    (completionFromGemini w st m t mt).2.stats.total_tokens = st.stats.total_tokens ∧
    (completionFromGemini w st m t mt).2.stats.provider_breakdown = st.stats.provider_breakdown ∧
    st.stats.total_requests ≤ (completionFromGemini w st m t mt).2.stats.total_requests := by
  unfold completionFromGemini
  cases hg : envTruthy (pyOr w.env.GEMINI_API_KEY w.env.GOOGLE_API_KEY) with
  | false => simpa [hg] using completionFromHuggingface_stats w st m t mt
  | true =>
    simp only [hg]
    rw [callGemini_eq]
    cases ho : geminiResult w m (keyVal (pyOr w.env.GEMINI_API_KEY w.env.GOOGLE_API_KEY)) t mt with
    | throws e =>
      obtain ⟨a1, a2, a3⟩ := adapterState_stats "gemini"
        (w.geminiCall (geminiArgs (keyVal (pyOr w.env.GEMINI_API_KEY w.env.GOOGLE_API_KEY)) m t mt)) st
      obtain ⟨b1, b2, b3⟩ := completionFromHuggingface_stats w
        (adapterState "gemini"
          (w.geminiCall (geminiArgs (keyVal (pyOr w.env.GEMINI_API_KEY w.env.GOOGLE_API_KEY)) m t mt)) st)
        m t mt
      refine ⟨by simp [b1, a1], by simp [b2, a2], ?_⟩
      simpa using le_trans a3 b3
    | ok r => simpa using adapterState_stats "gemini" _ st

theorem completionFromTogether_stats (w : World) (st : GWState) (m : List Msg)
    (model : String) (t : Float) (mt : Option Int) :
    (completionFromTogether w st m model t mt).2.stats.total_tokens = st.stats.total_tokens ∧
    (completionFromTogether w st m model t mt).2.stats.provider_breakdown = st.stats.provider_breakdown ∧
    st.stats.total_requests ≤ (completionFromTogether w st m model t mt).2.stats.total_requests := by
  unfold completionFromTogether
  cases hg : envTruthy w.env.TOGETHER_API_KEY with
  | false => simpa [hg] using completionFromGemini_stats w st m t mt
  | true =>
    simp only [hg]
    rw [callTogether_eq]
    cases ho : togetherResult w m (keyVal w.env.TOGETHER_API_KEY) model t mt with
    | throws e =>
      obtain ⟨a1, a2, a3⟩ := adapterState_stats "together"
        (w.togetherCall (togetherArgs (keyVal w.env.TOGETHER_API_KEY) model m t mt)) st
      obtain ⟨b1, b2, b3⟩ := completionFromGemini_stats w
        (adapterState "together"
          (w.togetherCall (togetherArgs (keyVal w.env.TOGETHER_API_KEY) model m t mt)) st)
        m t mt
      refine ⟨by simp [b1, a1], by simp [b2, a2], ?_⟩
      simpa using le_trans a3 b3
    | ok r => simpa using adapterState_stats "together" _ st

theorem completion_stats (w : World) (st : GWState) (m : List Msg)
    (model : String) (t : Float) (mt : Option Int) :
    (completion w st m model t mt).2.stats.total_tokens = st.stats.total_tokens ∧
    (completion w st m model t mt).2.stats.provider_breakdown = st.stats.provider_breakdown ∧
    st.stats.total_requests ≤ (completion w st m model t mt).2.stats.total_requests := by
  unfold completion
  cases hg : envTruthy w.env.GROQ_API_KEY with
  | false => simpa [hg] using completionFromTogether_stats w st m model t mt
  | true =>
    simp only [hg]
    rw [callGroq_eq]
    cases ho : groqResult w m (keyVal w.env.GROQ_API_KEY) t mt with
    | throws e =>
      obtain ⟨a1, a2, a3⟩ := adapterState_stats "groq"
        (w.groqCall (groqArgs (keyVal w.env.GROQ_API_KEY) m t mt)) st
      obtain ⟨b1, b2, b3⟩ := completionFromTogether_stats w
        (adapterState "groq"
          (w.groqCall (groqArgs (keyVal w.env.GROQ_API_KEY) m t mt)) st)
        m model t mt
      refine ⟨by simp [b1, a1], by simp [b2, a2], ?_⟩
      simpa using le_trans a3 b3
    | ok r => simpa using adapterState_stats "groq" _ st

/-! ### Concrete fixtures for closed evaluations -/

/-- A one-message conversation used in concrete runs. -/
def msgs0 : List Msg := [{ role := "user", content := "hi" }]

/-- A concrete temperature value used in concrete runs. -/
def temp0 : Float := 0.7

/-- The environment with every credential variable unset. -/
def envNone : Env :=
  { GROQ_API_KEY := none, TOGETHER_API_KEY := none, GEMINI_API_KEY := none,
    GOOGLE_API_KEY := none, HUGGINGFACE_API_KEY := none, HF_API_KEY := none,
    OPENAI_API_KEY := none }

/-- A world with no credentials; all network calls would fail if reached. -/
def wNoKeys : World :=
  { env := envNone,
    groqCall := fun _ => .throws "network unreachable",
    togetherCall := fun _ => .throws "network unreachable",
    geminiCall := fun _ => .throws "network unreachable",
    hfCall := fun _ => .throws "network unreachable",
    openaiCall := fun _ => .throws "network unreachable" }

/-- With every credential variable unset, `completion` falls through every
block and returns the sentinel, leaving the state untouched. -/
theorem completion_no_keys (w : World) (st : GWState) (m : List Msg) (model : String)
    (t : Float) (mt : Option Int)
    (h1 : w.env.GROQ_API_KEY = none) (h2 : w.env.TOGETHER_API_KEY = none)
    (h3 : w.env.GEMINI_API_KEY = none) (h4 : w.env.GOOGLE_API_KEY = none)
    (h5 : w.env.HUGGINGFACE_API_KEY = none) (h6 : w.env.HF_API_KEY = none)
    (h7 : w.env.OPENAI_API_KEY = none) :
    completion w st m model t mt = (noApiResponse, st) := by
  unfold completion completionFromTogether completionFromGemini
    completionFromHuggingface completionFromOpenai
  simp [h1, h2, h3, h4, h5, h6, h7, envTruthy, pyOr]

/-- C2: if no provider credential is present in the environment, `completion`
returns exactly the sentinel response with `provider = "none"`,
`model = "none"` and a non-empty explanatory content string, and the state
(including the attempt log) is unchanged — so no provider adapter was
invoked and the result is deterministic. -/
theorem C2_no_credentials_sentinel (w : World) (st : GWState) (m : List Msg)
    (model : String) (t : Float) (mt : Option Int)
    (h1 : w.env.GROQ_API_KEY = none) (h2 : w.env.TOGETHER_API_KEY = none)
    (h3 : w.env.GEMINI_API_KEY = none) (h4 : w.env.GOOGLE_API_KEY = none)
    (h5 : w.env.HUGGINGFACE_API_KEY = none) (h6 : w.env.HF_API_KEY = none)
    (h7 : w.env.OPENAI_API_KEY = none) :
    completion w st m model t mt = (noApiResponse, st) ∧
    noApiResponse.provider = "none" ∧
    noApiResponse.model = "none" ∧
    ∃ c, noApiResponse.choices = [c] ∧ c.message.content ≠ "" := by
  refine ⟨completion_no_keys w st m model t mt h1 h2 h3 h4 h5 h6 h7, rfl, rfl, ?_⟩
  exact ⟨_, rfl, by decide⟩

/-- Witness for C2 at a concrete empty environment. -/
theorem C2_no_credentials_sentinel_witness :
    completion wNoKeys initGateway msgs0 "m" temp0 none = (noApiResponse, initGateway) ∧
    noApiResponse.provider = "none" ∧
    noApiResponse.model = "none" ∧
    ∃ c, noApiResponse.choices = [c] ∧ c.message.content ≠ "" :=
  C2_no_credentials_sentinel wNoKeys initGateway msgs0 "m" temp0 none
    rfl rfl rfl rfl rfl rfl rfl

/-- C6: with every credential absent, two consecutive `completion` calls on
the same gateway state return the identical sentinel response, and the
first call performs no state mutation that could affect the second. -/
theorem C6_no_credentials_idempotent (w : World) (st : GWState) (m : List Msg)
    (model : String) (t : Float) (mt : Option Int)
    (h1 : w.env.GROQ_API_KEY = none) (h2 : w.env.TOGETHER_API_KEY = none)
    (h3 : w.env.GEMINI_API_KEY = none) (h4 : w.env.GOOGLE_API_KEY = none)
    (h5 : w.env.HUGGINGFACE_API_KEY = none) (h6 : w.env.HF_API_KEY = none)
    (h7 : w.env.OPENAI_API_KEY = none) :
    (completion w (completion w st m model t mt).2 m model t mt).1 =
      (completion w st m model t mt).1 ∧
    (completion w st m model t mt).2 = st := by
  have h := completion_no_keys w st m model t mt h1 h2 h3 h4 h5 h6 h7
  simp [h]

/-- Witness for C6 at a concrete empty environment. -/
theorem C6_no_credentials_idempotent_witness :
    (completion wNoKeys (completion wNoKeys initGateway msgs0 "m" temp0 none).2
        msgs0 "m" temp0 none).1 =
      (completion wNoKeys initGateway msgs0 "m" temp0 none).1 ∧
    (completion wNoKeys initGateway msgs0 "m" temp0 none).2 = initGateway :=
  C6_no_credentials_idempotent wNoKeys initGateway msgs0 "m" temp0 none
    rfl rfl rfl rfl rfl rfl rfl

/-- C1: `completion` is a total function (no exception reaches the caller
by construction of the embedding), and in the claimed scenario — Groq's
credential present but its call throwing, Together's credential present
and its call succeeding — the returned response is attributed to
`together` and carries the later provider's text. -/
theorem C1_first_throws_second_succeeds (w : World) (st : GWState) (m : List Msg)
    (model : String) (t : Float) (mt : Option Int) (e : String) (rep : ChatReply)
    (c : NativeChoice) (cs : List NativeChoice)
    (hg : envTruthy w.env.GROQ_API_KEY = true)
    (hthrow : ∀ a, w.groqCall a = .throws e)
    (ht : envTruthy w.env.TOGETHER_API_KEY = true)
    (hok : ∀ a, w.togetherCall a = .ok rep)
    (hc : rep.choices = c :: cs) :
    (completion w st m model t mt).1 =
      { choices := [{ message := { role := "assistant", content := c.message.content } }],
        provider := "together",
        model := togetherModel model } := by
  have hgr : groqResult w m (keyVal w.env.GROQ_API_KEY) t mt = .throws e := by
    unfold groqResult
    rw [hthrow]
  have htr : togetherResult w m (keyVal w.env.TOGETHER_API_KEY) model t mt =
      .ok { choices := [{ message := { role := "assistant", content := c.message.content } }],
            provider := "together",
            model := togetherModel model } := by
    unfold togetherResult
    rw [hok]
    simp [hc]
  unfold completion
  simp [hg, ht, callGroq_eq, hgr, completionFromTogether, callTogether_eq, htr]

/-- A world for the C1 scenario: both Groq and Together credentials set,
the Groq call times out, the Together call answers "ok". -/
def wGroqThrowsTogetherOk : World :=
  { env := { envNone with GROQ_API_KEY := some "gsk-test-0001",
                          TOGETHER_API_KEY := some "tok-test-0002" },
    groqCall := fun _ => .throws "timeout",
    togetherCall := fun _ =>
      .ok { choices := [{ message := { role := "assistant", content := "ok" } }] },
    geminiCall := fun _ => .throws "network unreachable",
    hfCall := fun _ => .throws "network unreachable",
    openaiCall := fun _ => .throws "network unreachable" }

/-- Witness for C1 at the concrete scenario world. -/
theorem C1_first_throws_second_succeeds_witness :
    (completion wGroqThrowsTogetherOk initGateway msgs0
        "meta-llama/Llama-3.3-70B-Instruct-Turbo" temp0 none).1 =
      { choices := [{ message := { role := "assistant", content := "ok" } }],
        provider := "together",
        model := togetherModel "meta-llama/Llama-3.3-70B-Instruct-Turbo" } :=
  C1_first_throws_second_succeeds wGroqThrowsTogetherOk initGateway msgs0
    "meta-llama/Llama-3.3-70B-Instruct-Turbo" temp0 none "timeout"
    { choices := [{ message := { role := "assistant", content := "ok" } }] }
    { message := { role := "assistant", content := "ok" } } []
    rfl (fun _ => rfl) rfl (fun _ => rfl) rfl

/-- A world in which only the Groq credential is set and the Groq network
call returns normally with an empty `choices` array, so the adapter
increments `total_requests` and then raises while translating the reply. -/
def wGroqEmptyChoices : World :=
  { env := { envNone with GROQ_API_KEY := some "gsk-test-0001" },
    groqCall := fun _ => .ok { choices := [] },
    togetherCall := fun _ => .throws "network unreachable",
    geminiCall := fun _ => .throws "network unreachable",
    hfCall := fun _ => .throws "network unreachable",
    openaiCall := fun _ => .throws "network unreachable" }

/-- Counterexample to C3: on this input the only provider attempt is Groq
(the log is `["groq"]`), that attempt fails — the whole call degrades to
the sentinel with `provider = "none"` — and yet `total_requests` ends at
1, because `_call_groq` increments the counter before reading
`response.choices[0]`, which raises on the empty `choices` list. -/
theorem C3_counterexample :
    (completion wGroqEmptyChoices initGateway msgs0 "m" temp0 none).1.provider = "none" ∧
    (completion wGroqEmptyChoices initGateway msgs0 "m" temp0 none).2.log = ["groq"] ∧
    (completion wGroqEmptyChoices initGateway msgs0 "m" temp0 none).2.stats.total_requests
      = 1 := by
  decide

/-- C3 amended: `total_requests` is incremented exactly once per provider
attempt whose native network call returns without throwing — even when
the subsequent translation of the native reply throws (empty `choices`) —
and is left unchanged by attempts whose native call itself throws.
Stated for the two adapters the claim cites, `_call_groq` and
`_call_together`. -/
theorem C3_amended_increment_on_native_return (w : World) (st : GWState)
    (m : List Msg) (k model : String) (t : Float) (mt : Option Int) :
    (callGroq w st m k t mt).2.stats.total_requests =
      st.stats.total_requests +
        (if isOk (w.groqCall (groqArgs k m t mt)) then 1 else 0) ∧
    (callTogether w st m k model t mt).2.stats.total_requests =
      st.stats.total_requests +
        (if isOk (w.togetherCall (togetherArgs k model m t mt)) then 1 else 0) := by
  rw [callGroq_eq, callTogether_eq]
  constructor
  · cases h : isOk (w.groqCall (groqArgs k m t mt)) <;>
      simp [adapterState, incReq, h]
  · cases h : isOk (w.togetherCall (togetherArgs k model m t mt)) <;>
      simp [adapterState, incReq, h]

/-- C4: the returned `provider` field is exactly the tag of the first
gated provider whose adapter completes (`providerOf`); it is never the
empty string; it is `"none"` iff every provider in the chain was either
skipped for an absent credential or failed; and it is always either
`"none"` or one of the five provider tags. -/
theorem C4_provider_invariant (w : World) (st : GWState) (m : List Msg)
    (model : String) (t : Float) (mt : Option Int) :
    (completion w st m model t mt).1.provider = providerOf w m model t mt ∧
    (completion w st m model t mt).1.provider ≠ "" ∧
    ((completion w st m model t mt).1.provider = "none" ↔
      groqRet w m t mt = false ∧ togetherRet w m model t mt = false ∧
      geminiRet w m t mt = false ∧ hfRet w m t mt = false ∧
      openaiRet w m t mt = false) ∧
    ((completion w st m model t mt).1.provider = "none" ∨
      (completion w st m model t mt).1.provider ∈
        ["groq", "together", "gemini", "huggingface", "openai"]) := by
  have h := completion_provider w st m model t mt
  rw [h]
  cases hr1 : groqRet w m t mt <;> cases hr2 : togetherRet w m model t mt <;>
    cases hr3 : geminiRet w m t mt <;> cases hr4 : hfRet w m t mt <;>
    cases hr5 : openaiRet w m t mt <;>
    simp [providerOf, hr1, hr2, hr3, hr4, hr5]

/-- C5: with the first two priorities (Groq, Together) skipped for absent
credentials and the third priority (Gemini) gated and succeeding with
text `txt`, `completion` returns that text attributed to `gemini` with
Gemini's default model, and the attempt log shows Gemini as the only
provider attempted — no later provider is consulted (the Hugging Face
and OpenAI oracles are unconstrained). -/
theorem C5_third_priority_first_success (w : World) (st : GWState) (m : List Msg)
    (model : String) (t : Float) (mt : Option Int) (txt : String)
    (h1 : envTruthy w.env.GROQ_API_KEY = false)
    (h2 : envTruthy w.env.TOGETHER_API_KEY = false)
    (h3 : envTruthy (pyOr w.env.GEMINI_API_KEY w.env.GOOGLE_API_KEY) = true)
    (hok : ∀ a, w.geminiCall a = .ok { text := txt }) :
    (completion w st m model t mt).1 =
      { choices := [{ message := { role := "assistant", content := txt } }],
        provider := "gemini",
        model := "gemini-pro" } ∧
    (completion w st m model t mt).2.log = st.log ++ ["gemini"] := by
  have hgr : geminiResult w m
      (keyVal (pyOr w.env.GEMINI_API_KEY w.env.GOOGLE_API_KEY)) t mt =
      .ok { choices := [{ message := { role := "assistant", content := txt } }],
            provider := "gemini",
            model := "gemini-pro" } := by
    unfold geminiResult
    rw [hok]
  constructor
  · unfold completion
    simp [h1, h2, h3, completionFromTogether, completionFromGemini,
      callGemini_eq, hgr]
  · rw [completion_log]
    unfold attemptTags togetherTags geminiTags groqRet togetherRet geminiRet
      groqGate togetherGate geminiGate
    simp [h1, h2, h3, hgr, isOk]

/-- A world for the C5 scenario: only the Gemini credential present, the
Gemini call succeeding with "hello". -/
def wGeminiHello : World :=
  { env := { envNone with GEMINI_API_KEY := some "AIza-test-0003" },
    groqCall := fun _ => .throws "network unreachable",
    togetherCall := fun _ => .throws "network unreachable",
    geminiCall := fun _ => .ok { text := "hello" },
    hfCall := fun _ => .throws "network unreachable",
    openaiCall := fun _ => .throws "network unreachable" }

/-- Witness for C5 at the concrete scenario world. -/
theorem C5_third_priority_first_success_witness :
    (completion wGeminiHello initGateway msgs0 "m" temp0 none).1 =
      { choices := [{ message := { role := "assistant", content := "hello" } }],
        provider := "gemini",
        model := "gemini-pro" } ∧
    (completion wGeminiHello initGateway msgs0 "m" temp0 none).2.log =
      initGateway.log ++ ["gemini"] :=
  C5_third_priority_first_success wGeminiHello initGateway msgs0 "m" temp0 none
    "hello" rfl rfl rfl (fun _ => rfl)

/-- First-choice content of an adapter result (the `content` a caller
reads off the returned dict). -/
def resContent : CallResult Response → Option String
  | .throws _ => none
  | .ok r =>
    match r.choices with
    | [] => none
    | c :: _ => some c.message.content

/-- C7: every adapter copies the text of the native reply into the
response's `content` verbatim: the first reply choice's content for the
chat-style providers, `response.text` for Gemini, and the first item's
`generated_text` for Hugging Face. -/
theorem C7_translation_verbatim (w : World) (st : GWState) (m : List Msg)
    (t : Float) (mt : Option Int) (kG kT kGem kH kO model : String)
    (repG repT repO : ChatReply) (cG cT cO : NativeChoice)
    (csG csT csO : List NativeChoice) (gRep : GemReply)
    (item : HFItem) (items : List HFItem) (srep T : String)
    (hG : w.groqCall (groqArgs kG m t mt) = .ok repG)
    (hGc : repG.choices = cG :: csG)
    (hT : w.togetherCall (togetherArgs kT model m t mt) = .ok repT)
    (hTc : repT.choices = cT :: csT)
    (hGem : w.geminiCall (geminiArgs kGem m t mt) = .ok gRep)
    (hH : w.hfCall (hfArgs kH m t mt) = .ok (.jlist (item :: items) srep))
    (hHt : item.generated_text = some T)
    (hO : w.openaiCall (openaiArgs kO m t mt) = .ok repO)
    (hOc : repO.choices = cO :: csO) :
    resContent (callGroq w st m kG t mt).1 = some cG.message.content ∧
    resContent (callTogether w st m kT model t mt).1 = some cT.message.content ∧
    resContent (callGemini w st m kGem t mt).1 = some gRep.text ∧
    resContent (callHuggingface w st m kH t mt).1 = some T ∧
    resContent (callOpenai w st m kO t mt).1 = some cO.message.content := by
  refine ⟨?_, ?_, ?_, ?_, ?_⟩
  · rw [callGroq_eq]
    unfold groqResult
    rw [hG]
    simp [hGc, resContent]
  · rw [callTogether_eq]
    unfold togetherResult
    rw [hT]
    simp [hTc, resContent]
  · rw [callGemini_eq]
    unfold geminiResult
    rw [hGem]
    simp [resContent]
  · rw [callHuggingface_eq]
    unfold hfResult
    rw [hH]
    simp [resContent, hfExtract, hHt]
  · rw [callOpenai_eq]
    unfold openaiResult
    rw [hO]
    simp [hOc, resContent]

/-- A world in which every provider credential is set and every native
call succeeds with a distinctive text. -/
def wAllOk : World :=
  { env := { GROQ_API_KEY := some "gsk-test-0001",
             TOGETHER_API_KEY := some "tok-test-0002",
             GEMINI_API_KEY := some "AIza-test-0003", GOOGLE_API_KEY := none,
             HUGGINGFACE_API_KEY := some "hf-test-0004", HF_API_KEY := none,
             OPENAI_API_KEY := some "sk-test-0005" },
    groqCall := fun _ =>
      .ok { choices := [{ message := { role := "assistant", content := "from groq" } }] },
    togetherCall := fun _ =>
      .ok { choices := [{ message := { role := "assistant", content := "from together" } }] },
    geminiCall := fun _ => .ok { text := "from gemini" },
    hfCall := fun _ => .ok (.jlist [{ generated_text := some "from hf" }] "[]"),
    openaiCall := fun _ =>
      .ok { choices := [{ message := { role := "assistant", content := "from openai" } }] } }

/-- Witness for C7 at a concrete all-success world. -/
theorem C7_translation_verbatim_witness :
    resContent (callGroq wAllOk initGateway msgs0 "k1" temp0 none).1 = some "from groq" ∧
    resContent (callTogether wAllOk initGateway msgs0 "k2" "m" temp0 none).1 =
      some "from together" ∧
    resContent (callGemini wAllOk initGateway msgs0 "k3" temp0 none).1 = some "from gemini" ∧
    resContent (callHuggingface wAllOk initGateway msgs0 "k4" temp0 none).1 = some "from hf" ∧
    resContent (callOpenai wAllOk initGateway msgs0 "k5" temp0 none).1 = some "from openai" :=
  C7_translation_verbatim wAllOk initGateway msgs0 temp0 none "k1" "k2" "k3" "k4" "k5" "m"
    { choices := [{ message := { role := "assistant", content := "from groq" } }] }
    { choices := [{ message := { role := "assistant", content := "from together" } }] }
    { choices := [{ message := { role := "assistant", content := "from openai" } }] }
    { message := { role := "assistant", content := "from groq" } }
    { message := { role := "assistant", content := "from together" } }
    { message := { role := "assistant", content := "from openai" } }
    [] [] [] { text := "from gemini" }
    { generated_text := some "from hf" } [] "[]" "from hf"
    rfl rfl rfl rfl rfl rfl rfl rfl rfl

/-- C8: each adapter passes `max_tokens or 2000` as that provider's token
limit: the fixed default 2000 when the request's `max_tokens` is unset,
and the caller's value when it is a positive integer.  `groqArgs`
through `openaiArgs` are, by definition of `callGroq` … `callOpenai`,
exactly the arguments handed to the provider clients. -/
theorem C8_max_tokens_default (k model : String) (m : List Msg) (t : Float) :
    ((groqArgs k m t none).max_tokens = 2000 ∧
      ∀ n : Int, 0 < n → (groqArgs k m t (some n)).max_tokens = n) ∧
    ((togetherArgs k model m t none).max_tokens = 2000 ∧
      ∀ n : Int, 0 < n → (togetherArgs k model m t (some n)).max_tokens = n) ∧
    ((geminiArgs k m t none).max_output_tokens = 2000 ∧
      ∀ n : Int, 0 < n → (geminiArgs k m t (some n)).max_output_tokens = n) ∧
    ((hfArgs k m t none).max_new_tokens = 2000 ∧
      ∀ n : Int, 0 < n → (hfArgs k m t (some n)).max_new_tokens = n) ∧
    ((openaiArgs k m t none).max_tokens = 2000 ∧
      ∀ n : Int, 0 < n → (openaiArgs k m t (some n)).max_tokens = n) := by
  refine ⟨⟨rfl, ?_⟩, ⟨rfl, ?_⟩, ⟨rfl, ?_⟩, ⟨rfl, ?_⟩, ⟨rfl, ?_⟩⟩ <;>
    · intro n hn
      simp [groqArgs, togetherArgs, geminiArgs, hfArgs, openaiArgs, pyOrInt, hn.ne']

/-- Witness for C8: unset gives 2000, the positive value 5 is forwarded. -/
theorem C8_max_tokens_default_witness :
    (groqArgs "k" msgs0 temp0 none).max_tokens = 2000 ∧
    ((0 : Int) < 5 ∧ (groqArgs "k" msgs0 temp0 (some 5)).max_tokens = 5) ∧
    (openaiArgs "k" msgs0 temp0 (some 5)).max_tokens = 5 :=
  ⟨(C8_max_tokens_default "k" "m" msgs0 temp0).1.1,
   ⟨by decide, (C8_max_tokens_default "k" "m" msgs0 temp0).1.2 5 (by decide)⟩,
   (C8_max_tokens_default "k" "m" msgs0 temp0).2.2.2.2.2 5 (by decide)⟩

theorem envTruthy_pyOr (a b : Option String) :
    envTruthy (pyOr a b) = (envTruthy a || envTruthy b) := by
  unfold pyOr
  cases h : envTruthy a <;> simp [h]

theorem mem_openaiTags (e : Env) (x : String) :
    x ∈ openaiTags e ↔ (x = "openai" ∧ openaiGate e = true) := by
  unfold openaiTags
  cases h : openaiGate e <;> simp [h]

theorem mem_hfTags (w : World) (m : List Msg) (t : Float) (mt : Option Int) (x : String) :
    x ∈ hfTags w m t mt ↔
      ((x = "huggingface" ∧ hfGate w.env = true) ∨
        (hfRet w m t mt = false ∧ x ∈ openaiTags w.env)) := by
  unfold hfTags
  cases h1 : hfGate w.env <;> cases h2 : hfRet w m t mt <;> simp [h1, h2]

theorem mem_geminiTags (w : World) (m : List Msg) (t : Float) (mt : Option Int) (x : String) :
    x ∈ geminiTags w m t mt ↔
      ((x = "gemini" ∧ geminiGate w.env = true) ∨
        (geminiRet w m t mt = false ∧ x ∈ hfTags w m t mt)) := by
  unfold geminiTags
  cases h1 : geminiGate w.env <;> cases h2 : geminiRet w m t mt <;> simp [h1, h2]

theorem mem_togetherTags (w : World) (m : List Msg) (model : String) (t : Float)
    (mt : Option Int) (x : String) :
    x ∈ togetherTags w m model t mt ↔
      ((x = "together" ∧ togetherGate w.env = true) ∨
        (togetherRet w m model t mt = false ∧ x ∈ geminiTags w m t mt)) := by
  unfold togetherTags
  cases h1 : togetherGate w.env <;> cases h2 : togetherRet w m model t mt <;> simp [h1, h2]

theorem mem_attemptTags (w : World) (m : List Msg) (model : String) (t : Float)
    (mt : Option Int) (x : String) :
    x ∈ attemptTags w m model t mt ↔
      ((x = "groq" ∧ groqGate w.env = true) ∨
        (groqRet w m t mt = false ∧ x ∈ togetherTags w m model t mt)) := by
  unfold attemptTags
  cases h1 : groqGate w.env <;> cases h2 : groqRet w m t mt <;> simp [h1, h2]

/-- Whether the Gemini adapter is entered on a fixed concrete request. -/
def geminiAttempted (w : World) : Bool :=
  (completion w initGateway msgs0 "m" temp0 none).2.log.contains "gemini"

/-- A world whose only credential is `GOOGLE_API_KEY`. -/
def wGoogleOnly : World :=
  { wNoKeys with env := { envNone with GOOGLE_API_KEY := some "g-key-0006" } }

/-- A world whose only credential is `GEMINI_API_KEY`. -/
def wGeminiOnly : World :=
  { wNoKeys with env := { envNone with GEMINI_API_KEY := some "g-key-0007" } }

/-- Counterexample to C9: whether the Gemini provider is attempted is not
determined by the presence or absence of any single environment variable.
It is not a function of `GEMINI_API_KEY` alone (two environments agreeing
there — `wGoogleOnly` and `wNoKeys`, both with it absent — behave
differently), nor of `GOOGLE_API_KEY` alone (`wGeminiOnly` versus
`wNoKeys`): the gate is the disjunction of the two variables. -/
theorem C9_counterexample :
    (¬ ∀ w wB : World, w.env.GEMINI_API_KEY = wB.env.GEMINI_API_KEY →
        geminiAttempted w = geminiAttempted wB) ∧
    (¬ ∀ w wB : World, w.env.GOOGLE_API_KEY = wB.env.GOOGLE_API_KEY →
        geminiAttempted w = geminiAttempted wB) := by
  constructor
  · intro hyp
    have h := hyp wGoogleOnly wNoKeys rfl
    revert h
    decide
  · intro hyp
    have h := hyp wGeminiOnly wNoKeys rfl
    revert h
    decide

/-- C9 amended: Groq, Together and OpenAI are each gated by the presence
of exactly one environment variable read during the call; Gemini and
Hugging Face are each gated by the presence of either one of a pair of
variables (`GEMINI_API_KEY`/`GOOGLE_API_KEY`, resp.
`HUGGINGFACE_API_KEY`/`HF_API_KEY`).  A provider is attempted iff its
gate holds and no earlier provider already returned a response. -/
theorem C9_amended_gating (w : World) (m : List Msg) (model : String)
    (t : Float) (mt : Option Int) :
    ("groq" ∈ (completion w initGateway m model t mt).2.log ↔
      envTruthy w.env.GROQ_API_KEY = true) ∧
    (groqRet w m t mt = false →
      ("together" ∈ (completion w initGateway m model t mt).2.log ↔
        envTruthy w.env.TOGETHER_API_KEY = true)) ∧
    (groqRet w m t mt = false → togetherRet w m model t mt = false →
      ("gemini" ∈ (completion w initGateway m model t mt).2.log ↔
        (envTruthy w.env.GEMINI_API_KEY || envTruthy w.env.GOOGLE_API_KEY) = true)) ∧
    (groqRet w m t mt = false → togetherRet w m model t mt = false →
      geminiRet w m t mt = false →
      ("huggingface" ∈ (completion w initGateway m model t mt).2.log ↔
        (envTruthy w.env.HUGGINGFACE_API_KEY || envTruthy w.env.HF_API_KEY) = true)) ∧
    (groqRet w m t mt = false → togetherRet w m model t mt = false →
      geminiRet w m t mt = false → hfRet w m t mt = false →
      ("openai" ∈ (completion w initGateway m model t mt).2.log ↔
        envTruthy w.env.OPENAI_API_KEY = true)) := by
  rw [completion_log]
  refine ⟨?_, ?_, ?_, ?_, ?_⟩
  · simp [mem_attemptTags, mem_togetherTags, mem_geminiTags, mem_hfTags,
      mem_openaiTags, groqGate, initGateway]
  · intro hr1
    simp [mem_attemptTags, mem_togetherTags, mem_geminiTags, mem_hfTags,
      mem_openaiTags, hr1, togetherGate, initGateway]
  · intro hr1 hr2
    simp [mem_attemptTags, mem_togetherTags, mem_geminiTags, mem_hfTags,
      mem_openaiTags, hr1, hr2, geminiGate, envTruthy_pyOr, initGateway]
  · intro hr1 hr2 hr3
    simp [mem_attemptTags, mem_togetherTags, mem_geminiTags, mem_hfTags,
      mem_openaiTags, hr1, hr2, hr3, hfGate, envTruthy_pyOr, initGateway]
  · intro hr1 hr2 hr3 hr4
    simp [mem_attemptTags, mem_togetherTags, mem_geminiTags, mem_hfTags,
      mem_openaiTags, hr1, hr2, hr3, hr4, openaiGate, initGateway]

/-- Witness for C9's amended gating at a concrete world: with only the
Gemini credential set and Groq/Together not returning, Gemini is
attempted, and its gate is the disjunction of the two variables. -/
theorem C9_amended_gating_witness :
    "gemini" ∈ (completion wGeminiHello initGateway msgs0 "m" temp0 none).2.log ↔
      (envTruthy wGeminiHello.env.GEMINI_API_KEY ||
        envTruthy wGeminiHello.env.GOOGLE_API_KEY) = true :=
  (C9_amended_gating wGeminiHello msgs0 "m" temp0 none).2.2.1 (by decide) (by decide)

/-- Stats frame of a whole sequence of `completion` calls. -/
theorem runCompletions_stats (w : World) (reqs : List Request) : ∀ st : GWState,
    (runCompletions w st reqs).stats.total_tokens = st.stats.total_tokens ∧
    (runCompletions w st reqs).stats.provider_breakdown = st.stats.provider_breakdown ∧
    st.stats.total_requests ≤ (runCompletions w st reqs).stats.total_requests := by
  induction reqs with
  | nil => intro st; simp [runCompletions]
  | cons r rs ih =>
    intro st
    obtain ⟨g1, g2, g3⟩ := completion_stats w st r.messages r.model r.temperature r.max_tokens
    obtain ⟨i1, i2, i3⟩ := ih (completion w st r.messages r.model r.temperature r.max_tokens).2
    refine ⟨?_, ?_, ?_⟩
    · simp only [runCompletions]
      rw [i1, g1]
    · simp only [runCompletions]
      rw [i2, g2]
    · simp only [runCompletions]
      exact le_trans g3 i3

/-- C10: across any sequence of `completion` calls, `total_tokens` and
`provider_breakdown` are never modified (starting from `initGateway` they
retain `0` and the empty mapping), and `total_requests` never decreases;
a single call likewise only ever changes `total_requests`. -/
theorem C10_stats_frame (w : World) (st : GWState) (m : List Msg) (model : String)
    (t : Float) (mt : Option Int) (reqs : List Request) :
    (completion w st m model t mt).2.stats.total_tokens = st.stats.total_tokens ∧
    (completion w st m model t mt).2.stats.provider_breakdown =
      st.stats.provider_breakdown ∧
    st.stats.total_requests ≤ (completion w st m model t mt).2.stats.total_requests ∧
    (runCompletions w initGateway reqs).stats.total_tokens = 0 ∧
    (runCompletions w initGateway reqs).stats.provider_breakdown = [] ∧
    (runCompletions w initGateway reqs).stats =
      get_stats (runCompletions w initGateway reqs) := by
  obtain ⟨h1, h2, h3⟩ := completion_stats w st m model t mt
  obtain ⟨r1, r2, _⟩ := runCompletions_stats w reqs initGateway
  exact ⟨h1, h2, h3, r1, r2, rfl⟩

end LLMGateway
